import Mathlib

/-!
# Verification of the chat-store application (src/streamlit_app.py)

A shallow embedding of the persistence layer, the session-management
actions and the title-generation helper of `streamlit_app.py`, together
with theorems settling the specification claims about them.

Conventions of the embedding:
* Python `dict`s appearing as JSON data are association lists
  (`List (String × Json)` resp. `List (String × ChatRecord)`); the
  application only ever builds dictionaries with unique keys, and every
  operation below implements the Python dictionary semantics (assignment
  to an existing key updates in place, assignment to a fresh key appends).
* Python `float` timestamps (`time.time()`) are modelled as `Int`:
  only their ordering is ever used by the program.
* Python strings are Lean `String`s; slicing `s[:n]` acts on the
  sequence of code points, i.e. on `String.data`.
* Exceptions are `Except`/`Option` results; the network calls to the
  completion service are abstracted as an explicit result parameter
  (`StreamResult` / `ApiResult`), since the service is external.
-/

namespace ChatApp

/-- JSON values, as produced by Python's `json.load`.  Numbers are
modelled as `Int` (only ordering and round-tripping matter here). -/
inductive Json where
  | null
  | bool (b : Bool)
  | num (n : Int)
  | str (s : String)
  | arr (elems : List Json)
  | obj (fields : List (String × Json))

/-- The Python exceptions that the store code can raise and does not
catch (`except (json.JSONDecodeError, FileNotFoundError)` catches
neither of these). -/
inductive PyError where
  | typeError
  | attributeError
deriving DecidableEq

/-- `startsWithChars pat l`: `pat` is a prefix of `l` (helper for the
Python substring test). -/
def startsWithChars : List Char → List Char → Bool
  | [], _ => true
  | _ :: _, [] => false
  | p :: ps, c :: cs => p == c && startsWithChars ps cs

/-- `containsChars pat l`: `pat` occurs as a contiguous run in `l`
(Python `pat in s` on strings). -/
def containsChars (pat : List Char) : List Char → Bool
  | [] => pat.isEmpty
  | c :: cs => startsWithChars pat (c :: cs) || containsChars pat cs

/-- Whether a JSON value is exactly the given Python string (Python `==`
between a `str` and an arbitrary value). -/
def isStrEq (s : String) : Json → Bool
  | .str t => s == t
  | _ => false

/-- Python `key in data` for a parsed JSON value `data`:
key membership for a dict, element equality for a list, substring test
for a string; `TypeError` for the non-iterable values `None`, booleans
and numbers. -/
def pyContains (key : String) : Json → Except PyError Bool
  | .obj fields => .ok (fields.any (fun kv => kv.1 == key))
  | .arr elems => .ok (elems.any (isStrEq key))
  | .str s => .ok (containsChars key.data s.data)
  | _ => .error .typeError

/-- Python `data.get(key)`: defined only on dicts (`AttributeError`
otherwise); returns `None` — here `Option.none` — when the key is
absent. -/
def pyGet (key : String) : Json → Except PyError (Option Json)
  | .obj fields => .ok (fields.lookup key)
  | _ => .error .attributeError

/-- Python `isinstance(v, dict)` applied to the result of `.get`
(where `none` models Python `None`). -/
def isDict : Option Json → Bool
  | some (.obj _) => true
  | _ => false

/-- The state of the backing file `db.json`, at the granularity the
store code observes it: absent, present but zero-sized, present with
content that `json.load` rejects (`JSONDecodeError`), or present with
content parsing to the JSON value `data`. -/
inductive FileState where
  | missing
  | empty
  | invalid
  | parsed (data : Json)

/-- The empty store `{'chats': {}}`. -/
def emptyStore : Json := .obj [("chats", .obj [])]

/-- `load_db` (streamlit_app.py lines 42-52).  Returns the parsed
document, the empty store, or propagates an uncaught exception:
the `try` block only catches `json.JSONDecodeError` and
`FileNotFoundError`, so a `TypeError`/`AttributeError` raised by the
`'chats' not in data or not isinstance(data.get('chats'), dict)` test
escapes. -/
def load_db : FileState → Except PyError Json
  | .missing => .ok emptyStore
  | .empty => .ok emptyStore
  | .invalid => .ok emptyStore
  | .parsed data =>
    match pyContains "chats" data with
    | .error e => .error e
    | .ok mem =>
      if !mem then .ok emptyStore
      else
        match pyGet "chats" data with
        | .error e => .error e
        | .ok v => if isDict v then .ok data else .ok emptyStore

/-- `save_db` (lines 54-56): `json.dump(db, file, indent=4)` overwrites
the backing file with a serialization of `db`; the file afterwards is
non-empty and parses back to exactly `db` (every `Json` value is
serializable, and `json.dump` followed by `json.load` is the identity
on such values).  We model the file at parse granularity. -/
def save_db (db : Json) : FileState := .parsed db

/-- The default-title sentinel `DEFAULT_TITLE = "New Chat"` (line 9). -/
def DEFAULT_TITLE : String := "New Chat"

/-- One chat message: a `{"role": ..., "content": ...}` dict. -/
structure Message where
  role : String
  content : String
deriving DecidableEq

/-- One chat record: a `{"title": ..., "messages": [...], "created_at": ...}`
dict.  `created_at` is `Option Int` because the code reads it with
`.get('created_at', 0)`, i.e. tolerates its absence. -/
structure ChatRecord where
  title : String
  messages : List Message
  created_at : Option Int
deriving DecidableEq

/-- The `db['chats']` dictionary: chat id → record, in insertion order. -/
abbrev Store := List (String × ChatRecord)

/-- Python dict assignment `d[k] = v`: replace the value at the slot
holding `k` when present (keeping the slot's position), append a new
slot otherwise. -/
def dictSet : Store → String → ChatRecord → Store
  | [], k, v => [(k, v)]
  | p :: t, k, v => if p.1 == k then (k, v) :: t else p :: dictSet t k v

/-- Python `del d[k]` (only ever executed when `k` is present). -/
def dictDel (db : Store) (k : String) : Store :=
  db.eraseP (fun p => p.1 == k)

/-- The rename/delete dialog's two buttons. -/
inductive DialogAction where
  | saveTitle (newTitle : String)
  | deleteChat

/-- What one dialog interaction leaves behind: the in-memory store, the
session's active-chat pointer, and the document handed to `save_db`
during the interaction (`none` when `save_db` was not called, i.e. the
backing file is untouched). -/
structure DialogResult where
  db : Store
  active_chat_id : Option String
  written : Option Store
deriving DecidableEq

/-- `edit_chat_dialog` (lines 88-117).  The missing-id guard
(lines 91-94) shows a warning and reruns, leaving store and file alone.
"Save title" (lines 103-108) unconditionally assigns the entered title
and saves.  "Delete chat" (lines 110-117) deletes the record, clears
the active pointer if it pointed at the deleted chat, and saves. -/
def edit_chat_dialog (db : Store) (active : Option String) (chat_id : String) :
    DialogAction → DialogResult
  | act =>
    match db.lookup chat_id with
    | none => ⟨db, active, none⟩
    | some rec =>
      match act with
      | .saveTitle newTitle =>
        let db1 := dictSet db chat_id { rec with title := newTitle }
        ⟨db1, active, some db1⟩
      | .deleteChat =>
        let db1 := dictDel db chat_id
        let active1 := if active == some chat_id then none else active
        ⟨db1, active1, some db1⟩

/-- The "New Chat" button (lines 123-126): clears the active pointer;
the store is not touched and nothing is written. -/
def newChat (db : Store) (_active : Option String) : Store × Option String :=
  (db, none)

/-- The sort key of chat `cid`: `db['chats'][cid].get('created_at', 0)`
(line 132).  The key function is only ever applied to keys of the
dictionary, where the lookup succeeds. -/
def sortKeyOf (db : Store) (cid : String) : Int :=
  match db.lookup cid with
  | some rec => rec.created_at.getD 0
  | none => 0

/-- `sorted_chat_ids` (lines 130-134): the keys of `db['chats']`,
stably sorted by descending `created_at` (Python
`sorted(..., reverse=True)` is a stable descending sort). -/
def sorted_chat_ids (db : Store) : List String :=
  (db.map Prod.fst).mergeSort
    (fun a b => decide (sortKeyOf db b ≤ sortKeyOf db a))

/-- Initialization of the session's active chat when the session has no
`active_chat_id` yet (lines 171-172):
`sorted_chat_ids[0] if sorted_chat_ids else None`. -/
def initialActiveChatId (db : Store) : Option String :=
  (sorted_chat_ids db).head?

/-- Python `s[:n]`: the first `n` code points of `s`. -/
def pySlice (s : String) (n : Nat) : String := ⟨s.data.take n⟩

/-- The `history_summary` built by `generate_title` (line 59):
per message only the role and the content truncated to 200 code
points. -/
def history_summary (chat_history : List Message) : List Message :=
  chat_history.map (fun m => ⟨m.role, pySlice m.content 200⟩)

/-- Outcome of the non-streaming completion call inside
`generate_title`: either the text extracted as
`response.choices[0].message.content`, or any exception along the way
(transport error, malformed response, missing choices, `None`
content — all land in the `except Exception` handler). -/
inductive ApiResult where
  | ok (raw : String)
  | failure

/-- Python `.strip()`: drop whitespace from both ends. -/
def pyStrip (l : List Char) : List Char :=
  ((l.dropWhile Char.isWhitespace).reverse.dropWhile Char.isWhitespace).reverse

/-- Python `.replace('"', '')`: removing every occurrence of a
single-character pattern is filtering that character out. -/
def pyRemoveQuotes (l : List Char) : List Char :=
  l.filter (fun c => !(c == '"'))

/-- `generate_title` (lines 58-78).  On success the raw model output is
stripped and stripped of double quotes; an empty result falls back to
`DEFAULT_TITLE` (Python truthiness of `title`).  On any exception the
`except` branch returns `DEFAULT_TITLE`. -/
def generate_title (_chat_history : List Message) (api : ApiResult) : String :=
  match api with
  | .failure => DEFAULT_TITLE
  | .ok raw =>
    let title : String := ⟨pyRemoveQuotes (pyStrip raw.data)⟩
    if title.isEmpty then DEFAULT_TITLE else title

/-- Outcome of `client.chat.completions.create(..., stream=True)`
followed by `st.write_stream`: the fully assembled reply text, or an
exception (`GatewayRequestError` in the spec's taxonomy). -/
inductive StreamResult where
  | ok (text : String)
  | requestError

/-- What one run of the chat-input handler leaves behind: the in-memory
store, the active pointer, the document handed to `save_db` (`none` if
no write happened), whether `generate_title` was invoked, and whether
the run ended in an uncaught exception. -/
structure ExchangeOutcome where
  db : Store
  active_chat_id : Option String
  written : Option Store
  titleAttempted : Bool
  raised : Bool
deriving DecidableEq

/-- The chat-input handler (lines 184-215), for one submitted `prompt`.
`newId`/`now` are the values of the two `time.time()` calls on
lines 186 and 191.  With no active chat a fresh record is created
(lines 185-192); the user message is appended (line 194); the streaming
call either raises — propagating before any save — or yields the reply,
which is appended (line 207); then the title guard (line 209) decides
between title generation plus save (lines 210-213) and a plain save
(line 215).  The result is `none` exactly when Python would raise
`KeyError`: an active id absent from the store. -/
def handleExchange (db : Store) (active : Option String) (newId : String)
    (now : Int) (prompt : String) (stream : StreamResult)
    (titleApi : ApiResult) : Option ExchangeOutcome :=
  let dbA : Store :=
    match active with
    | none => dictSet db newId ⟨DEFAULT_TITLE, [], some now⟩
    | some _ => db
  let aid : String :=
    match active with
    | none => newId
    | some cid => cid
  match dbA.lookup aid with
  | none => none
  | some rec =>
    let rec1 : ChatRecord :=
      { rec with messages := rec.messages ++ [⟨"user", prompt⟩] }
    let db1 := dictSet dbA aid rec1
    match stream with
    | .requestError => some ⟨db1, some aid, none, false, true⟩
    | .ok resp =>
      let rec2 : ChatRecord :=
        { rec1 with messages := rec1.messages ++ [⟨"assistant", resp⟩] }
      let db2 := dictSet db1 aid rec2
      if rec2.title == DEFAULT_TITLE && rec2.messages.length == 2 then
        let t := generate_title rec2.messages titleApi
        let db3 := dictSet db2 aid { rec2 with title := t }
        some ⟨db3, some aid, some db3, true, false⟩
      else
        some ⟨db2, some aid, some db2, false, false⟩

/-- The record the exchange of `handleExchange` starts from: the fresh
record when no chat is active, the stored record otherwise. -/
def startingRecord (db : Store) (active : Option String) (now : Int) :
    Option ChatRecord :=
  match active with
  | none => some ⟨DEFAULT_TITLE, [], some now⟩
  | some cid => db.lookup cid

/-- A one-chat example store, used by the concrete instantiations
below. -/
def exStore : Store :=
  [("c1", ⟨"Hello", [⟨"user", "hi"⟩, ⟨"assistant", "hey"⟩], some 5⟩)]

/-- An example store with three chats created at times 10, 30, 20. -/
def exStore3 : Store :=
  [("a", ⟨"A", [], some 10⟩), ("b", ⟨"B", [], some 30⟩),
   ("c", ⟨"C", [], some 20⟩)]

/-! ## Helper lemmas about association-list dictionaries -/

theorem lookup_cons_ite {β : Type} (a k : String) (b : β)
    (t : List (String × β)) :
    ((a, b) :: t).lookup k = if k = a then some b else t.lookup k := by
  rw [List.lookup_cons]
  by_cases h : k = a
  · subst h
    simp
  · simp [beq_eq_false_iff_ne.mpr h, h]

theorem dictSet_cons (a : String) (b : ChatRecord) (t : Store)
    (k : String) (v : ChatRecord) :
    dictSet ((a, b) :: t) k v =
      if a = k then (k, v) :: t else (a, b) :: dictSet t k v := by
  by_cases h : a = k
  · subst h
    simp [dictSet]
  · simp [dictSet, beq_eq_false_iff_ne.mpr h, h]

theorem dictDel_cons (a : String) (b : ChatRecord) (t : Store)
    (k : String) :
    dictDel ((a, b) :: t) k =
      if a = k then t else (a, b) :: dictDel t k := by
  simp only [dictDel, List.eraseP_cons]
  by_cases h : a = k
  · simp [h]
  · simp [beq_eq_false_iff_ne.mpr h, h]

theorem any_key_eq_lookup_isSome {β : Type} (l : List (String × β))
    (k : String) :
    (l.any fun kv => kv.1 == k) = (l.lookup k).isSome := by
  induction l with
  | nil => rfl
  | cons p t ih =>
    obtain ⟨a, b⟩ := p
    rw [List.any_cons, lookup_cons_ite]
    by_cases h : k = a
    · subst h
      simp
    · rw [if_neg h]
      simpa [beq_eq_false_iff_ne.mpr (Ne.symm h)] using ih

theorem lookup_dictSet_self (db : Store) (k : String) (v : ChatRecord) :
    (dictSet db k v).lookup k = some v := by
  induction db with
  | nil => simp [dictSet, lookup_cons_ite]
  | cons p t ih =>
    obtain ⟨a, b⟩ := p
    rw [dictSet_cons]
    by_cases h : a = k
    · rw [if_pos h, lookup_cons_ite, if_pos rfl]
    · rw [if_neg h, lookup_cons_ite, if_neg (Ne.symm h)]
      exact ih

theorem lookup_dictSet_ne (db : Store) (k k' : String) (v : ChatRecord)
    (h : k' ≠ k) :
    (dictSet db k v).lookup k' = db.lookup k' := by
  induction db with
  | nil => simp [dictSet, lookup_cons_ite, h]
  | cons p t ih =>
    obtain ⟨a, b⟩ := p
    rw [dictSet_cons]
    by_cases hak : a = k
    · subst hak
      rw [if_pos rfl, lookup_cons_ite, if_neg h, lookup_cons_ite, if_neg h]
    · rw [if_neg hak, lookup_cons_ite, lookup_cons_ite]
      by_cases hk : k' = a
      · rw [if_pos hk, if_pos hk]
      · rw [if_neg hk, if_neg hk]
        exact ih

theorem dictSet_fresh (db : Store) (k : String) (v : ChatRecord)
    (h : db.lookup k = none) :
    dictSet db k v = db ++ [(k, v)] := by
  induction db with
  | nil => simp [dictSet]
  | cons p t ih =>
    obtain ⟨a, b⟩ := p
    rw [lookup_cons_ite] at h
    by_cases hka : k = a
    · rw [if_pos hka] at h
      exact absurd h (by simp)
    · rw [if_neg hka] at h
      rw [dictSet_cons, if_neg (Ne.symm hka), List.cons_append, ih h]

theorem dictSet_append_fresh (db : Store) (k : String) (v w : ChatRecord)
    (h : db.lookup k = none) :
    dictSet (db ++ [(k, v)]) k w = db ++ [(k, w)] := by
  induction db with
  | nil =>
    simp [dictSet_cons]
  | cons p t ih =>
    obtain ⟨a, b⟩ := p
    rw [lookup_cons_ite] at h
    by_cases hka : k = a
    · rw [if_pos hka] at h
      exact absurd h (by simp)
    · rw [if_neg hka] at h
      rw [List.cons_append, dictSet_cons, if_neg (Ne.symm hka),
        List.cons_append, ih h]

theorem lookup_dictDel_self (db : Store) (k : String)
    (hnd : (db.map Prod.fst).Nodup) :
    (dictDel db k).lookup k = none := by
  induction db with
  | nil => simp [dictDel]
  | cons p t ih =>
    obtain ⟨a, b⟩ := p
    simp only [List.map_cons, List.nodup_cons] at hnd
    obtain ⟨hna, hnt⟩ := hnd
    rw [dictDel_cons]
    by_cases hak : a = k
    · subst hak
      rw [if_pos rfl, List.lookup_eq_none_iff]
      intro q hq
      have hmem : q.1 ∈ t.map Prod.fst := List.mem_map_of_mem _ hq
      have hne : a ≠ q.1 := fun he => hna (he ▸ hmem)
      simpa using hne
    · rw [if_neg hak, lookup_cons_ite, if_neg (Ne.symm hak)]
      exact ih hnt

theorem lookup_dictDel_ne (db : Store) (k k' : String) (h : k' ≠ k) :
    (dictDel db k).lookup k' = db.lookup k' := by
  induction db with
  | nil => simp [dictDel]
  | cons p t ih =>
    obtain ⟨a, b⟩ := p
    rw [dictDel_cons]
    by_cases hak : a = k
    · subst hak
      rw [if_pos rfl, lookup_cons_ite, if_neg h]
    · rw [if_neg hak, lookup_cons_ite, lookup_cons_ite]
      by_cases hk : k' = a
      · rw [if_pos hk, if_pos hk]
      · rw [if_neg hk, if_neg hk]
        exact ih

/-- Characterization of `load_db` on a file parsing to a JSON object:
data is returned as-is when `chats` maps to an object, the empty store
otherwise; no exception escapes. -/
theorem load_db_obj (fields : List (String × Json)) :
    load_db (.parsed (.obj fields)) =
      (if isDict (fields.lookup "chats") then .ok (.obj fields)
       else .ok emptyStore) := by
  simp only [load_db, pyContains]
  rw [any_key_eq_lookup_isSome]
  cases hl : fields.lookup "chats" with
  | none => simp [isDict]
  | some v => simp [pyGet, hl]

/-! ## Claim C1: graceful loading -/

/-- C1 counterexample: a backing file containing the JSON literal
`null` is "content that fails to parse as the expected structure", yet
`load_db` raises `TypeError` (Python evaluates `'chats' in None`)
instead of returning the empty store — refuting "load returns the
empty store and never raises" for every such file state. -/
theorem load_db_raises_on_null_file :
    load_db (FileState.parsed Json.null) = Except.error PyError.typeError :=
  rfl

/-- C1 (amended): `load_db` returns `{'chats': {}}` and raises nothing
whenever the backing file is missing, empty, fails JSON parsing, or
parses to a JSON *object* whose `chats` field is absent or not a
mapping.  (For a file parsing to a non-object value the function can
instead raise, see `load_db_raises_on_null_file`.) -/
theorem load_db_graceful (fs : FileState)
    (h : fs = .missing ∨ fs = .empty ∨ fs = .invalid ∨
      ∃ fields, fs = .parsed (.obj fields) ∧
        isDict (fields.lookup "chats") = false) :
    load_db fs = .ok emptyStore := by
  rcases h with h | h | h | ⟨fields, h, hd⟩ <;> subst h
  · rfl
  · rfl
  · rfl
  · rw [load_db_obj, if_neg (by simp [hd])]

/-- C1 witness: a missing backing file loads as the empty store. -/
theorem load_db_graceful_witness : load_db .missing = .ok emptyStore :=
  load_db_graceful .missing (Or.inl rfl)

/-! ## Claim C2: save/load round trip -/

/-- C2: for every store whose top-level `chats` field is a mapping
(as any store built by the application is — in particular its keys are
unique, since it comes from a Python dict), saving and then loading
returns the identical store. -/
theorem save_load_roundtrip (fields cfields : List (String × Json))
    (_hkeys : (fields.map Prod.fst).Nodup)
    (hchats : fields.lookup "chats" = some (.obj cfields)) :
    load_db (save_db (.obj fields)) = .ok (.obj fields) := by
  show load_db (FileState.parsed (.obj fields)) = .ok (.obj fields)
  rw [load_db_obj, hchats]
  simp [isDict]

/-- C2 witness: concrete round trip of a store with one chat entry. -/
theorem save_load_roundtrip_witness :
    load_db (save_db (.obj [("chats", .obj [("c1", .str "x")])])) =
      .ok (.obj [("chats", .obj [("c1", .str "x")])]) :=
  save_load_roundtrip [("chats", .obj [("c1", .str "x")])] [("c1", .str "x")]
    (by simp) (by simp)

/-! ## Claim C8: recency ordering -/

theorem sorted_chat_ids_pairwise (db : Store) :
    (sorted_chat_ids db).Pairwise
      (fun a b => sortKeyOf db b ≤ sortKeyOf db a) := by
  unfold sorted_chat_ids
  have hs := @List.sorted_mergeSort String
    (fun a b => decide (sortKeyOf db b ≤ sortKeyOf db a))
    (fun a b c h1 h2 => by
      simp only [decide_eq_true_eq] at h1 h2 ⊢
      exact le_trans h2 h1)
    (fun a b => by
      simp only [Bool.or_eq_true, decide_eq_true_eq]
      exact le_total (sortKeyOf db b) (sortKeyOf db a))
    (db.map Prod.fst)
  exact hs.imp (fun hab => by simpa using hab)

theorem sorted_chat_ids_perm (db : Store) :
    (sorted_chat_ids db).Perm (db.map Prod.fst) := by
  unfold sorted_chat_ids
  exact List.mergeSort_perm _ _

/-- C8: `sorted_chat_ids` produces the store's chat ids (a permutation
of the keys) ordered by descending `created_at`: every id occurring
earlier in the output has a sort key at least as large as every id
occurring after it. -/
theorem sorted_chat_ids_spec (db : Store) :
    (sorted_chat_ids db).Pairwise
      (fun a b => sortKeyOf db b ≤ sortKeyOf db a) ∧
    (sorted_chat_ids db).Perm (db.map Prod.fst) :=
  ⟨sorted_chat_ids_pairwise db, sorted_chat_ids_perm db⟩

/-! ## Claim C10: initial active-chat selection -/

/-- C10: when a session starts with no active-chat pointer, the
application picks the most recently created chat: the initial pointer
is `none` exactly for the empty store, and any id it picks belongs to
the store and has a maximal `created_at` sort key; moreover a record
without a `created_at` field is ranked with sort key `0`. -/
theorem initial_active_chat_spec :
    (∀ db : Store, initialActiveChatId db = none ↔ db = []) ∧
    (∀ (db : Store) (cid : String), initialActiveChatId db = some cid →
      cid ∈ db.map Prod.fst ∧
      ∀ c ∈ db.map Prod.fst, sortKeyOf db c ≤ sortKeyOf db cid) ∧
    (∀ (db : Store) (cid : String) (rec : ChatRecord),
      db.lookup cid = some rec → rec.created_at = none →
      sortKeyOf db cid = 0) := by
  refine ⟨?_, ?_, ?_⟩
  · intro db
    unfold initialActiveChatId
    rw [List.head?_eq_none_iff]
    constructor
    · intro h
      have hperm := (sorted_chat_ids_perm db)
      rw [h] at hperm
      have hmap : db.map Prod.fst = [] := hperm.symm.eq_nil
      exact List.map_eq_nil_iff.mp hmap
    · intro h
      subst h
      simp [sorted_chat_ids]
  · intro db cid h
    have hperm := (sorted_chat_ids_perm db)
    have hpair := (sorted_chat_ids_pairwise db)
    unfold initialActiveChatId at h
    cases hs : sorted_chat_ids db with
    | nil => rw [hs] at h; exact absurd h (by simp)
    | cons x t =>
      rw [hs] at h hperm hpair
      have hx : x = cid := by simpa using h
      subst hx
      constructor
      · exact hperm.mem_iff.mp (List.mem_cons_self x t)
      · intro c hc
        have hc2 : c ∈ x :: t := hperm.mem_iff.mpr hc
        rcases List.mem_cons.mp hc2 with hcx | hct
        · subst hcx; exact le_refl _
        · exact (List.pairwise_cons.mp hpair).1 c hct
  · intro db cid rec h1 h2
    simp [sortKeyOf, h1, h2]

/-- C10 witness: the empty store yields no active chat, and a
three-chat store yields one. -/
theorem initial_active_chat_witness :
    initialActiveChatId ([] : Store) = none ∧
    initialActiveChatId exStore3 ≠ none := by
  constructor
  · exact (initial_active_chat_spec.1 []).mpr rfl
  · intro h
    have h2 := (initial_active_chat_spec.1 exStore3).mp h
    exact absurd h2 (by simp [exStore3])

/-! ## Claim C4: renaming -/

/-- C4 counterexample: the "Save title" handler has no guard at all.
Renaming the chat titled `"Hello"` to the empty string changes the
store and writes it to disk, and "renaming" it to its current title
also triggers a write — refuting the claimed no-op for empty and
unchanged titles. -/
theorem rename_no_guard_counterexample :
    (edit_chat_dialog exStore (some "c1") "c1" (.saveTitle "")).db ≠ exStore ∧
    (edit_chat_dialog exStore (some "c1") "c1" (.saveTitle "")).written ≠ none ∧
    (edit_chat_dialog exStore (some "c1") "c1"
        (.saveTitle "Hello")).written ≠ none := by
  decide

/-- C4 (amended): for every chat id present in the store,
`renameChat(id, newTitle)` unconditionally sets the record's title to
`newTitle` — also when `newTitle` is empty or equal to the current
title — leaves the rest of the record and all other chats unchanged,
keeps the active pointer, and persists the updated store immediately. -/
theorem rename_always_updates_and_writes (db : Store)
    (active : Option String) (chat_id newTitle : String) (rec : ChatRecord)
    (h : db.lookup chat_id = some rec) :
    (edit_chat_dialog db active chat_id (.saveTitle newTitle)).db.lookup chat_id
        = some { rec with title := newTitle } ∧
    (edit_chat_dialog db active chat_id (.saveTitle newTitle)).written
        = some (edit_chat_dialog db active chat_id (.saveTitle newTitle)).db ∧
    (edit_chat_dialog db active chat_id (.saveTitle newTitle)).active_chat_id
        = active ∧
    ∀ other, other ≠ chat_id →
      (edit_chat_dialog db active chat_id (.saveTitle newTitle)).db.lookup other
        = db.lookup other := by
  simp only [edit_chat_dialog, h]
  refine ⟨lookup_dictSet_self _ _ _, trivial, trivial, ?_⟩
  intro other hother
  exact lookup_dictSet_ne _ _ _ _ hother

/-- C4 witness: renaming the example chat to the empty string stores
the empty title (and, per the counterexample, writes the file). -/
theorem rename_always_updates_witness :
    (edit_chat_dialog exStore (some "c1") "c1" (.saveTitle "")).db.lookup "c1"
      = some ⟨"", [⟨"user", "hi"⟩, ⟨"assistant", "hey"⟩], some 5⟩ := by
  have h := rename_always_updates_and_writes exStore (some "c1") "c1" ""
    ⟨"Hello", [⟨"user", "hi"⟩, ⟨"assistant", "hey"⟩], some 5⟩ (by decide)
  exact h.1

/-! ## Claim C5: deletion -/

/-- C5: deleting an existing chat removes exactly that record (the
store's keys being unique, as Python dict keys are), leaves every other
record unchanged, clears the active pointer exactly when it pointed at
the deleted chat, and persists the updated store; deleting a
nonexistent id leaves store, pointer and file untouched and raises
nothing. -/
theorem delete_chat_spec (db : Store) (active : Option String)
    (chat_id : String) :
    ((db.lookup chat_id).isSome = true →
      (db.map Prod.fst).Nodup →
      (edit_chat_dialog db active chat_id .deleteChat).db.lookup chat_id
          = none ∧
      (∀ other, other ≠ chat_id →
        (edit_chat_dialog db active chat_id .deleteChat).db.lookup other
          = db.lookup other) ∧
      (edit_chat_dialog db active chat_id .deleteChat).active_chat_id
          = (if active = some chat_id then none else active) ∧
      (edit_chat_dialog db active chat_id .deleteChat).written
          = some (edit_chat_dialog db active chat_id .deleteChat).db) ∧
    (db.lookup chat_id = none →
      edit_chat_dialog db active chat_id .deleteChat = ⟨db, active, none⟩) := by
  constructor
  · intro hsome hnd
    obtain ⟨rec, hrec⟩ := Option.isSome_iff_exists.mp hsome
    simp only [edit_chat_dialog, hrec]
    refine ⟨lookup_dictDel_self _ _ hnd, ?_, ?_, trivial⟩
    · intro other hother
      exact lookup_dictDel_ne _ _ _ hother
    · by_cases hact : active = some chat_id
      · simp [hact]
      · simp [hact, beq_eq_false_iff_ne.mpr hact]
  · intro hnone
    simp only [edit_chat_dialog, hnone]

/-- C5 witness: deleting the only chat of the example store while it is
active removes it, and deleting an absent id is an untouched no-op. -/
theorem delete_chat_witness :
    (edit_chat_dialog exStore (some "c1") "c1" .deleteChat).db.lookup "c1"
        = none ∧
    edit_chat_dialog exStore (some "c1") "c9" .deleteChat
        = ⟨exStore, some "c1", none⟩ := by
  constructor
  · exact ((delete_chat_spec exStore (some "c1") "c1").1
      (by decide) (by decide)).1
  · exact (delete_chat_spec exStore (some "c1") "c9").2 (by decide)

/-! ## Claim C9: title generation is total and bounded -/

/-- C9: `generate_title` never propagates a failure: any exception and
any empty (post-stripping) result produce the default-title sentinel;
and the summary it sends contains, per message, only the role and a
prefix of the content of length at most 200. -/
theorem generate_title_total_and_bounded :
    (∀ hist : List Message, generate_title hist .failure = DEFAULT_TITLE) ∧
    (∀ (hist : List Message) (raw : String),
      (⟨pyRemoveQuotes (pyStrip raw.data)⟩ : String).isEmpty = true →
      generate_title hist (.ok raw) = DEFAULT_TITLE) ∧
    (∀ (hist : List Message) (m : Message), m ∈ history_summary hist →
      ∃ m0 ∈ hist, m.role = m0.role ∧
        (∃ rest, m0.content.data = m.content.data ++ rest) ∧
        m.content.data.length ≤ 200) := by
  refine ⟨fun hist => rfl, ?_, ?_⟩
  · intro hist raw h
    simp only [generate_title]
    rw [if_pos h]
  · intro hist m hm
    simp only [history_summary, List.mem_map] at hm
    obtain ⟨m0, hm0, he⟩ := hm
    refine ⟨m0, hm0, ?_, ?_, ?_⟩
    · rw [← he]
    · refine ⟨m0.content.data.drop 200, ?_⟩
      rw [← he]
      exact (List.take_append_drop 200 m0.content.data).symm
    · rw [← he]
      simp [pySlice]

/-- C9 witness: a failing call and a call returning only whitespace
and quotes both yield the default title. -/
theorem generate_title_witness :
    generate_title [⟨"user", "hi"⟩] .failure = DEFAULT_TITLE ∧
    generate_title [] (.ok " \" ") = DEFAULT_TITLE := by
  constructor
  · exact generate_title_total_and_bounded.1 [⟨"user", "hi"⟩]
  · exact generate_title_total_and_bounded.2.1 [] " \" " (by decide)

/-! ## Claim C7: failed streaming persists nothing -/

/-- C7: when the streaming reply call raises after the user message was
appended in memory, the handler propagates the exception with no
assistant message appended and nothing written to the backing file
(`written = none`): the active chat holds its prior messages plus
exactly the user message, and every other chat is untouched. -/
theorem stream_failure_not_persisted (db : Store) (cid : String)
    (rec : ChatRecord) (newId : String) (now : Int) (prompt : String)
    (titleApi : ApiResult)
    (h : db.lookup cid = some rec) :
    handleExchange db (some cid) newId now prompt .requestError titleApi =
      some ⟨dictSet db cid
          { rec with messages := rec.messages ++ [⟨"user", prompt⟩] },
        some cid, none, false, true⟩ ∧
    (dictSet db cid
        { rec with messages := rec.messages ++ [⟨"user", prompt⟩] }).lookup cid
      = some { rec with messages := rec.messages ++ [⟨"user", prompt⟩] } ∧
    ∀ other, other ≠ cid →
      (dictSet db cid
          { rec with messages := rec.messages ++ [⟨"user", prompt⟩] }).lookup
          other
        = db.lookup other := by
  refine ⟨?_, lookup_dictSet_self _ _ _,
    fun other ho => lookup_dictSet_ne _ _ _ _ ho⟩
  simp only [handleExchange, h]

/-- C7 witness: a failed stream on the example store appends only the
user message in memory and writes nothing. -/
theorem stream_failure_witness :
    handleExchange exStore (some "c1") "n" 9 "q" .requestError .failure =
      some ⟨dictSet exStore "c1"
          ⟨"Hello", [⟨"user", "hi"⟩, ⟨"assistant", "hey"⟩, ⟨"user", "q"⟩],
           some 5⟩,
        some "c1", none, false, true⟩ := by
  have h := stream_failure_not_persisted exStore "c1"
    ⟨"Hello", [⟨"user", "hi"⟩, ⟨"assistant", "hey"⟩], some 5⟩ "n" 9 "q"
    .failure (by decide)
  exact h.1

/-! ## Claim C6: lazy record creation -/

/-- C6: the "New Chat" button only clears the active pointer and
creates no record (the store — and hence what a save/load pair shows —
is unchanged); the record is created lazily by the first message of a
new conversation, and after one completed exchange the store gained
exactly one record, holding exactly the two messages user-then-
assistant, created with the default-title sentinel which the title step
then replaced (`titleAttempted = true` certifies the guard saw the
default title on two messages). -/
theorem lazy_record_creation (db : Store) (a : Option String)
    (newId : String) (now : Int) (prompt resp : String)
    (titleApi : ApiResult)
    (hfresh : db.lookup newId = none) :
    newChat db a = (db, none) ∧
    handleExchange db none newId now prompt (.ok resp) titleApi =
      some ⟨db ++ [(newId,
          ⟨generate_title [⟨"user", prompt⟩, ⟨"assistant", resp⟩] titleApi,
           [⟨"user", prompt⟩, ⟨"assistant", resp⟩], some now⟩)],
        some newId,
        some (db ++ [(newId,
          ⟨generate_title [⟨"user", prompt⟩, ⟨"assistant", resp⟩] titleApi,
           [⟨"user", prompt⟩, ⟨"assistant", resp⟩], some now⟩)]),
        true, false⟩ := by
  refine ⟨rfl, ?_⟩
  simp only [handleExchange, lookup_dictSet_self]
  rw [dictSet_fresh db newId _ hfresh]
  rw [dictSet_append_fresh db newId _ _ hfresh]
  rw [dictSet_append_fresh db newId _ _ hfresh]
  rw [dictSet_append_fresh db newId _ _ hfresh]
  simp [DEFAULT_TITLE]

/-- C6 witness: starting from the empty store, "New Chat" then one full
exchange creates exactly one two-message record. -/
theorem lazy_record_creation_witness :
    newChat ([] : Store) none = ([], none) ∧
    handleExchange [] none "n" 7 "hi" (.ok "yo") .failure =
      some ⟨[("n",
          ⟨generate_title [⟨"user", "hi"⟩, ⟨"assistant", "yo"⟩] .failure,
           [⟨"user", "hi"⟩, ⟨"assistant", "yo"⟩], some 7⟩)],
        some "n",
        some [("n",
          ⟨generate_title [⟨"user", "hi"⟩, ⟨"assistant", "yo"⟩] .failure,
           [⟨"user", "hi"⟩, ⟨"assistant", "yo"⟩], some 7⟩)],
        true, false⟩ :=
  lazy_record_creation [] none "n" 7 "hi" "yo" .failure rfl

/-! ## Claim C3: the title-generation guard -/

/-- C3: after the assistant reply is appended, title generation is
attempted if and only if the chat then holds exactly two messages
(i.e. it started the exchange with none) and still carries the
default-title sentinel; in particular it is never attempted again on
any later exchange of the same chat. -/
theorem title_generation_iff (db : Store) (active : Option String)
    (newId : String) (now : Int) (prompt resp : String)
    (titleApi : ApiResult) (out : ExchangeOutcome) (rec : ChatRecord)
    (hrec : startingRecord db active now = some rec)
    (hout : handleExchange db active newId now prompt (.ok resp) titleApi
      = some out) :
    out.titleAttempted = true ↔
      (rec.title = DEFAULT_TITLE ∧ rec.messages.length = 0) := by
  cases active with
  | none =>
    simp only [startingRecord, Option.some.injEq] at hrec
    subst hrec
    simp only [handleExchange, lookup_dictSet_self] at hout
    simp at hout
    subst hout
    simp [DEFAULT_TITLE]
  | some cid =>
    simp only [startingRecord] at hrec
    simp only [handleExchange, hrec] at hout
    split at hout
    case isTrue hc =>
      simp only [Option.some.injEq] at hout
      subst hout
      simp only [Bool.and_eq_true, beq_iff_eq] at hc
      obtain ⟨hc1, hc2⟩ := hc
      simp only [List.length_append, List.length_cons, List.length_nil] at hc2
      have hlen : rec.messages.length = 0 := by omega
      exact iff_of_true rfl ⟨hc1, hlen⟩
    case isFalse hc =>
      simp only [Option.some.injEq] at hout
      subst hout
      refine iff_of_false (by simp) ?_
      rintro ⟨h1, h2⟩
      apply hc
      simp [h1, h2]

/-- C3 witness: on the example chat, which already holds two messages,
a further completed exchange does not attempt title generation. -/
theorem title_generation_iff_witness :
    ((handleExchange exStore (some "c1") "n" 9 "q" (.ok "r")
        ApiResult.failure).get (by decide)).titleAttempted = false := by
  have h := title_generation_iff exStore (some "c1") "n" 9 "q" "r"
    ApiResult.failure
    ((handleExchange exStore (some "c1") "n" 9 "q" (.ok "r")
        ApiResult.failure).get (by decide))
    ⟨"Hello", [⟨"user", "hi"⟩, ⟨"assistant", "hey"⟩], some 5⟩
    (by decide) (Option.some_get _).symm
  cases hb : ((handleExchange exStore (some "c1") "n" 9 "q" (.ok "r")
      ApiResult.failure).get (by decide)).titleAttempted with
  | true => exact absurd (h.mp hb) (by decide)
  | false => rfl

end ChatApp
